import Mathlib

/-!
Shallow embedding of the algorithmic core of the `korea_incubator` Home
Assistant integration, and proofs checking the specification's claims
against it.

Embedded source files:
* `custom_components/korea_incubator/utils.py`
  (`get_value_from_path`, `parse_date_value`)
* `custom_components/korea_incubator/kakaomap/coordinates.py`
  (`CoordinateConverter`, `convert_coordinates`, `validate_coordinates`)

Modelling conventions:
* Python data reachable by these functions is modelled by the inductive
  type `PyVal` (None, strings, integers, lists, dicts).  Dicts are
  association lists with the first binding of a key authoritative, which
  matches Python dict lookup for the literal inputs used here.
* Python floats are modelled as real numbers (idealised arithmetic;
  IEEE-754 rounding is not modelled).
* A Python function that can raise an exception is modelled with
  `Except String`; an exception handled inside the source function is
  resolved to the handler's result in the embedding, exactly where the
  source installs the handler.
* Strings are treated at ASCII/Unicode code-point level; `str.isdigit`
  is modelled as ASCII `Char.isDigit` and `int(...)` as an optional
  sign followed by ASCII digits, which agrees with Python on every
  input considered in the claims.
-/

namespace KoreaIncubator

/-- Model of the Python values the utility functions operate on. -/
inductive PyVal where
  | none
  | str (s : String)
  | int (n : ℤ)
  | list (xs : List PyVal)
  | dict (kvs : List (String × PyVal))

/-- Model of the Python identity test `value is None`. -/
def PyVal.isNone : PyVal → Bool
  | PyVal.none => true
  | _ => false

/-- Decimal value of a list of ASCII digit characters (as consumed by
Python `int` once the sign is removed). -/
def digitsToNat (cs : List Char) : ℕ :=
  cs.foldl (fun n c => 10 * n + (c.toNat - 48)) 0

/-- Model of Python `str.split(sep)` for a one-character separator
`sep` (as used with `"."` in `get_value_from_path`): splits on every
occurrence, keeping empty segments, and yields `[""]` on the empty
string, exactly like Python. -/
def pySplit (sep : Char) : List Char → List (List Char)
  | [] => [[]]
  | c :: rest =>
      match pySplit sep rest with
      | [] => [[c]]
      | seg :: segs =>
          if c = sep then [] :: seg :: segs else (c :: seg) :: segs

/-- Model of Python `int(s)`: optional surrounding whitespace, an
optional single sign, then one or more ASCII digits; anything else
raises `ValueError`, modelled as `Option.none`. -/
def pyInt (s : List Char) : Option ℤ :=
  let cs := ((s.dropWhile Char.isWhitespace).reverse.dropWhile
    Char.isWhitespace).reverse
  match cs with
  | '-' :: rest =>
      if rest ≠ [] ∧ rest.all Char.isDigit then some (-(digitsToNat rest : ℤ))
      else Option.none
  | '+' :: rest =>
      if rest ≠ [] ∧ rest.all Char.isDigit then some (digitsToNat rest : ℤ)
      else Option.none
  | _ =>
      if cs ≠ [] ∧ cs.all Char.isDigit then some (digitsToNat cs : ℤ)
      else Option.none

/-- Model of Python `key.lstrip("-").isdigit()`: after removing every
leading dash, the remainder is nonempty and all digits. -/
def lstripDashIsdigit (key : List Char) : Bool :=
  let rest := key.dropWhile (· = '-')
  rest ≠ [] && rest.all Char.isDigit

/-- Model of Python sequence indexing `xs[i]` with negative-index
support; `Option.none` is the `IndexError` case. -/
def pyIndex (xs : List PyVal) (i : ℤ) : Option PyVal :=
  let j : ℤ := if i < 0 then i + xs.length else i
  if h : 0 ≤ j ∧ j < xs.length then
    some (xs.get ⟨j.toNat, by
      have := h.2
      omega⟩)
  else Option.none

/-- Model of Python `dict.get(key)` (default `None`) on an association
list. -/
def dictGetPy : List (String × PyVal) → String → PyVal
  | [], _ => PyVal.none
  | (k, v) :: rest, key => if k = key then v else dictGetPy rest key

/-- Model of `index_part.rstrip("]")`: remove every trailing `]`. -/
def rstripRBracket (s : List Char) : List Char :=
  (s.reverse.dropWhile (· = ']')).reverse

/-- One iteration of the key loop of `get_value_from_path`
(utils.py lines 100–145), acting on the current value.  The source's
early `return None` statements are modelled as successfully producing
`PyVal.none`, which is extensionally identical because a `None` current
value short-circuits every later iteration; the uncaught `int(key)`
failure in the numeric-segment branch is the only exception that can
escape and is modelled with `Except.error`. -/
def stepKey (value : PyVal) (key : List Char) : Except String PyVal :=
  if key.contains '[' ∧ key.getLast? = some ']' then
    -- bracket branch: array_key[index]
    let arrayKey := String.mk (key.takeWhile (· ≠ '['))
    let indexPart := (key.dropWhile (· ≠ '[')).drop 1
    let indexStr := rstripRBracket indexPart
    match pyInt indexStr with
    | Option.none => Except.ok PyVal.none   -- except ValueError: return None
    | some index =>
        match value with
        | PyVal.dict kvs =>
            match dictGetPy kvs arrayKey with
            | PyVal.list xs => Except.ok ((pyIndex xs index).getD PyVal.none)
            | _ => Except.ok PyVal.none
        | _ => Except.ok PyVal.none
  else if lstripDashIsdigit key then
    -- numeric segment branch: `int(key)` is NOT inside a try/except
    match pyInt key with
    | Option.none => Except.error "ValueError: invalid literal for int"
    | some index =>
        match value with
        | PyVal.list xs => Except.ok ((pyIndex xs index).getD PyVal.none)
        | _ => Except.ok PyVal.none
  else
    match value with
    | PyVal.dict kvs => Except.ok (dictGetPy kvs (String.mk key))
    | _ => Except.ok PyVal.none

/-- The key loop of `get_value_from_path`: the `value is None` check at
the top of each iteration, then the per-key step. -/
def walkKeys : PyVal → List (List Char) → Except String PyVal
  | v, [] => Except.ok v
  | v, key :: rest =>
      if v.isNone then Except.ok PyVal.none
      else
        match stepKey v key with
        | Except.error e => Except.error e
        | Except.ok v2 => walkKeys v2 rest

/-- Model of `get_value_from_path(data, path)` (utils.py lines 88–147):
split the path on `.` and walk the resulting keys.  A `Except.ok
PyVal.none` result is Python's `None`; `Except.error` is an uncaught
exception escaping to the caller. -/
def get_value_from_path (data : PyVal) (path : String) : Except String PyVal :=
  walkKeys data (pySplit '.' path.data)

/-! ### Date parsing (`parse_date_value`, utils.py lines 150–328) -/

/-- Model of Python `str.strip()`. -/
def pyStrip (s : List Char) : List Char :=
  ((s.dropWhile Char.isWhitespace).reverse.dropWhile Char.isWhitespace).reverse

/-- Match a regex digit group `\d{lo,hi}` that is followed in the
pattern by a non-digit or the end of input: take the maximal digit run
and require its length in `[lo, hi]`.  Under that followed-by
condition this is exactly the regex semantics. -/
def digitRun (lo hi : ℕ) (cs : List Char) : Option (ℕ × List Char) :=
  let g := cs.takeWhile Char.isDigit
  if lo ≤ g.length ∧ g.length ≤ hi then
    some (digitsToNat g, cs.dropWhile Char.isDigit)
  else Option.none

/-- Match `\d+` at the end of a pattern (pattern 13's fraction). -/
def digitRunAtLeastOne (cs : List Char) : Option (ℕ × List Char) :=
  let g := cs.takeWhile Char.isDigit
  if 1 ≤ g.length then some (digitsToNat g, cs.dropWhile Char.isDigit)
  else Option.none

/-- Match one literal character. -/
def lit (c : Char) : List Char → Option (List Char)
  | x :: rest => if x = c then some rest else Option.none
  | [] => Option.none

/-- Match `\s{lo,}` (whitespace run of length at least `lo`). -/
def wsRun (lo : ℕ) (cs : List Char) : Option (List Char) :=
  let g := cs.takeWhile Char.isWhitespace
  if lo ≤ g.length then some (cs.dropWhile Char.isWhitespace)
  else Option.none

/-- Regex `^(\d{4})sep(\d{1,2})sep(\d{1,2})$` — patterns 1 (`-`),
3 (`/`) and 4 (`.`). -/
def matchY4MD (sep : Char) (cs : List Char) : Option (ℕ × ℕ × ℕ) := do
  let (y, r1) ← digitRun 4 4 cs
  let r2 ← lit sep r1
  let (m, r3) ← digitRun 1 2 r2
  let r4 ← lit sep r3
  let (d, r5) ← digitRun 1 2 r4
  if r5 = [] then some (y, m, d) else Option.none

/-- Regex `^(\d{4})(\d{2})(\d{2})$` — pattern 2. -/
def matchY4M2D2 (cs : List Char) : Option (ℕ × ℕ × ℕ) :=
  if cs.length = 8 ∧ cs.all Char.isDigit then
    some (digitsToNat (cs.take 4), digitsToNat ((cs.drop 4).take 2),
      digitsToNat (cs.drop 6))
  else Option.none

/-- Regex `^(\d{4})sep(\d{1,2})$` — patterns 5 (`-`) and 6 (`.`). -/
def matchY4M (sep : Char) (cs : List Char) : Option (ℕ × ℕ) := do
  let (y, r1) ← digitRun 4 4 cs
  let r2 ← lit sep r1
  let (m, r3) ← digitRun 1 2 r2
  if r3 = [] then some (y, m) else Option.none

/-- Regex `^(\d{4})(\d{2})$` — pattern 7. -/
def matchY4M2 (cs : List Char) : Option (ℕ × ℕ) :=
  if cs.length = 6 ∧ cs.all Char.isDigit then
    some (digitsToNat (cs.take 4), digitsToNat (cs.drop 4))
  else Option.none

/-- Regex `^(\d{1,2})/(\d{1,2})\s+(\d{1,2})$` — pattern 8. -/
def matchMDH (cs : List Char) : Option (ℕ × ℕ × ℕ) := do
  let (m, r1) ← digitRun 1 2 cs
  let r2 ← lit '/' r1
  let (d, r3) ← digitRun 1 2 r2
  let r4 ← wsRun 1 r3
  let (h, r5) ← digitRun 1 2 r4
  if r5 = [] then some (m, d, h) else Option.none

/-- Regex `^(\d{4})년\s*(\d{1,2})월\s*(\d{1,2})일$` — pattern 9. -/
def matchKoreanYMD (cs : List Char) : Option (ℕ × ℕ × ℕ) := do
  let (y, r1) ← digitRun 4 4 cs
  let r2 ← lit '년' r1
  let r3 ← wsRun 0 r2
  let (m, r4) ← digitRun 1 2 r3
  let r5 ← lit '월' r4
  let r6 ← wsRun 0 r5
  let (d, r7) ← digitRun 1 2 r6
  let r8 ← lit '일' r7
  if r8 = [] then some (y, m, d) else Option.none

/-- Regex `^(\d{4})년\s*(\d{1,2})월$` — pattern 10. -/
def matchKoreanYM (cs : List Char) : Option (ℕ × ℕ) := do
  let (y, r1) ← digitRun 4 4 cs
  let r2 ← lit '년' r1
  let r3 ← wsRun 0 r2
  let (m, r4) ← digitRun 1 2 r3
  let r5 ← lit '월' r4
  if r5 = [] then some (y, m) else Option.none

/-- Regex `^(\d{1,2})sep(\d{1,2})sep(\d{4})$` — patterns 11 (`/`) and
12 (`.`). -/
def matchMDY4 (sep : Char) (cs : List Char) : Option (ℕ × ℕ × ℕ) := do
  let (m, r1) ← digitRun 1 2 cs
  let r2 ← lit sep r1
  let (d, r3) ← digitRun 1 2 r2
  let r4 ← lit sep r3
  let (y, r5) ← digitRun 4 4 r4
  if r5 = [] then some (m, d, y) else Option.none

/-- Regex `^(\d{4})-(\d{1,2})-(\d{1,2})\s+(\d{1,2}):(\d{1,2}):(\d{1,2})\.(\d+)$`
— pattern 13. -/
def matchYMDHMS (cs : List Char) :
    Option (ℕ × ℕ × ℕ × ℕ × ℕ × ℕ × ℕ) := do
  let (y, r1) ← digitRun 4 4 cs
  let r2 ← lit '-' r1
  let (mo, r3) ← digitRun 1 2 r2
  let r4 ← lit '-' r3
  let (d, r5) ← digitRun 1 2 r4
  let r6 ← wsRun 1 r5
  let (h, r7) ← digitRun 1 2 r6
  let r8 ← lit ':' r7
  let (mi, r9) ← digitRun 1 2 r8
  let r10 ← lit ':' r9
  let (s, r11) ← digitRun 1 2 r10
  let r12 ← lit '.' r11
  let (f, r13) ← digitRunAtLeastOne r12
  if r13 = [] then some (y, mo, d, h, mi, s, f) else Option.none

/-- Model of a `tzinfo` tag as a fixed offset from UTC in minutes.
`TZ_ASIA_SEOUL = pytz.timezone("Asia/Seoul")` is modelled as the fixed
offset UTC+9 (540 minutes) with no daylight saving, as the spec
describes it; historical-LMT subtleties of attaching a pytz zone via
the `tzinfo=` constructor argument are not modelled, and no claim
settled here depends on the exact offset value. -/
def TZ_ASIA_SEOUL : ℤ := 540

/-- Model of a Python `datetime` value: calendar fields plus an
optional fixed-offset timezone tag (`Option.none` = naive). -/
structure PyDateTime where
  year : ℕ
  month : ℕ
  day : ℕ
  hour : ℕ
  minute : ℕ
  second : ℕ
  microsecond : ℕ
  tz : Option ℤ
deriving DecidableEq

/-- Gregorian leap-year rule (as used by `datetime`). -/
def isLeapYear (y : ℕ) : Bool :=
  (y % 4 = 0 && y % 100 ≠ 0) || y % 400 = 0

/-- Length of a month in the proleptic Gregorian calendar. -/
def daysInMonth (y m : ℕ) : ℕ :=
  if m = 2 then (if isLeapYear y then 29 else 28)
  else if m = 4 ∨ m = 6 ∨ m = 9 ∨ m = 11 then 30
  else 31

/-- Model of the `datetime(year, month, day, hour, minute, second,
microsecond=0, tzinfo)` constructor: `some` on a valid calendar
date-time, `Option.none` for the `ValueError` it otherwise raises. -/
def mkDatetime (y m d h mi s : ℕ) (tz : Option ℤ) : Option PyDateTime :=
  if (1 ≤ y ∧ y ≤ 9999) ∧ (1 ≤ m ∧ m ≤ 12) ∧ (1 ≤ d ∧ d ≤ daysInMonth y m)
      ∧ h ≤ 23 ∧ mi ≤ 59 ∧ s ≤ 59 then
    some ⟨y, m, d, h, mi, s, 0, tz⟩
  else Option.none

/-- Days since 1970-01-01 of a proleptic-Gregorian civil date
(Hinnant's civil-from-days family, floor division throughout). -/
def daysFromCivil (y m d : ℤ) : ℤ :=
  let y2 := if m ≤ 2 then y - 1 else y
  let era := Int.fdiv y2 400
  let yoe := y2 - era * 400
  let mp := (m + 9) % 12
  let doy := (153 * mp + 2) / 5 + d - 1
  let doe := yoe * 365 + yoe / 4 - yoe / 100 + doy
  era * 146097 + doe - 719468

/-- Inverse of `daysFromCivil`: the civil date `(y, m, d)` of a day
count since 1970-01-01. -/
def civilFromDays (z0 : ℤ) : ℤ × ℤ × ℤ :=
  let z := z0 + 719468
  let era := Int.fdiv z 146097
  let doe := z - era * 146097
  let yoe := (doe - doe / 1460 + doe / 36524 - doe / 146096) / 365
  let y := yoe + era * 400
  let doy := doe - (365 * yoe + yoe / 4 - yoe / 100)
  let mp := (5 * doy + 2) / 153
  let d := doy - (153 * mp + 2) / 5 + 1
  let m := if mp < 10 then mp + 3 else mp - 9
  (if m ≤ 2 then y + 1 else y, m, d)

/-- Wall-clock minutes of a datetime since 1970-01-01T00:00, ignoring
its timezone tag. -/
def wallMinutes (dt : PyDateTime) : ℤ :=
  daysFromCivil dt.year dt.month dt.day * 1440 + dt.hour * 60 + dt.minute

/-- Model of `datetime.astimezone(tz)` for whole-minute fixed-offset
zones; seconds and microseconds are unaffected by such offsets. -/
def astimezone (toTz : ℤ) (dt : PyDateTime) : PyDateTime :=
  match dt.tz with
  | Option.none => dt
  | some ofs =>
      let total := wallMinutes dt - ofs + toTz
      let days := Int.fdiv total 1440
      let rem := total - days * 1440
      let c := civilFromDays days
      ⟨c.1.toNat, c.2.1.toNat, c.2.2.toNat, (rem / 60).toNat,
        (rem % 60).toNat, dt.second, dt.microsecond, some toTz⟩

/-- Model of `homeassistant.util.dt.as_local`: a datetime already
tagged with the configured default timezone is returned unchanged; a
naive datetime is first tagged as UTC; the result is then converted to
the default timezone. -/
def as_local (defaultTz : ℤ) (dt : PyDateTime) : PyDateTime :=
  if dt.tz = some defaultTz then dt
  else
    astimezone defaultTz
      (if dt.tz = Option.none then { dt with tz := some 0 } else dt)

/-- The pattern cascade of `parse_date_value` producing the internal
`parsed_dt` (utils.py lines 174–322): the first pattern whose regex
matches the (already stripped) input decides the result — its
`datetime` constructor call either succeeds or raises `ValueError`,
which the source catches with an immediate `return None`
(`Option.none` here).  Pattern 1 constructs its datetime WITHOUT
`tzinfo=TZ_ASIA_SEOUL`; patterns 2–13 pass the timezone. -/
def parse_date_core (value : List Char) (currentYear : ℕ) :
    Option PyDateTime :=
  match matchY4MD '-' value with
  | some (y, m, d) => mkDatetime y m d 0 0 0 Option.none
  | Option.none =>
  match matchY4M2D2 value with
  | some (y, m, d) => mkDatetime y m d 0 0 0 (some TZ_ASIA_SEOUL)
  | Option.none =>
  match matchY4MD '/' value with
  | some (y, m, d) => mkDatetime y m d 0 0 0 (some TZ_ASIA_SEOUL)
  | Option.none =>
  match matchY4MD '.' value with
  | some (y, m, d) => mkDatetime y m d 0 0 0 (some TZ_ASIA_SEOUL)
  | Option.none =>
  match matchY4M '-' value with
  | some (y, m) => mkDatetime y m 1 0 0 0 (some TZ_ASIA_SEOUL)
  | Option.none =>
  match matchY4M '.' value with
  | some (y, m) => mkDatetime y m 1 0 0 0 (some TZ_ASIA_SEOUL)
  | Option.none =>
  match matchY4M2 value with
  | some (y, m) => mkDatetime y m 1 0 0 0 (some TZ_ASIA_SEOUL)
  | Option.none =>
  match matchMDH value with
  | some (m, d, h) => mkDatetime currentYear m d h 0 0 (some TZ_ASIA_SEOUL)
  | Option.none =>
  match matchKoreanYMD value with
  | some (y, m, d) => mkDatetime y m d 0 0 0 (some TZ_ASIA_SEOUL)
  | Option.none =>
  match matchKoreanYM value with
  | some (y, m) => mkDatetime y m 1 0 0 0 (some TZ_ASIA_SEOUL)
  | Option.none =>
  match matchMDY4 '/' value with
  | some (m, d, y) => mkDatetime y m d 0 0 0 (some TZ_ASIA_SEOUL)
  | Option.none =>
  match matchMDY4 '.' value with
  | some (m, d, y) => mkDatetime y m d 0 0 0 (some TZ_ASIA_SEOUL)
  | Option.none =>
  match matchYMDHMS value with
  | some (y, mo, d, h, mi, s, _) => mkDatetime y mo d h mi s (some TZ_ASIA_SEOUL)
  | Option.none => Option.none

/-- True when any of the 13 anchored pattern regexes matches. -/
def matchesAnyDatePattern (cs : List Char) : Bool :=
  (matchY4MD '-' cs).isSome || (matchY4M2D2 cs).isSome
  || (matchY4MD '/' cs).isSome || (matchY4MD '.' cs).isSome
  || (matchY4M '-' cs).isSome || (matchY4M '.' cs).isSome
  || (matchY4M2 cs).isSome || (matchMDH cs).isSome
  || (matchKoreanYMD cs).isSome || (matchKoreanYM cs).isSome
  || (matchMDY4 '/' cs).isSome || (matchMDY4 '.' cs).isSome
  || (matchYMDHMS cs).isSome

/-- Model of `parse_date_value(raw_value, current_year)` (utils.py
lines 150–328): non-string input returns `None`; otherwise the input
is stripped, run through the pattern cascade, and a successful parse
is passed through `dt_util.as_local` with Home Assistant's configured
default timezone (a parameter here). -/
def parse_date_value (rawValue : PyVal) (currentYear : ℕ) (defaultTz : ℤ) :
    Option PyDateTime :=
  match rawValue with
  | PyVal.str s => (parse_date_core (pyStrip s.data) currentYear).map
      (as_local defaultTz)
  | _ => Option.none

/-! ### Coordinate conversion (kakaomap/coordinates.py)

Python floats are modelled as real numbers (idealised arithmetic).
Every formula is transcribed term-for-term from the source. -/

noncomputable section

/-- Model of `math.radians(d)`. -/
def radians (d : ℝ) : ℝ := d * (Real.pi / 180)

/-- Model of `math.degrees(r)`. -/
def degrees (r : ℝ) : ℝ := r * (180 / Real.pi)

/-- Model of `math.atan2(y, x)` (signed zeros of floats not modelled). -/
def atan2 (y x : ℝ) : ℝ :=
  if 0 < x then Real.arctan (y / x)
  else if x < 0 ∧ 0 ≤ y then Real.arctan (y / x) + Real.pi
  else if x < 0 ∧ y < 0 then Real.arctan (y / x) - Real.pi
  else if x = 0 ∧ 0 < y then Real.pi / 2
  else if x = 0 ∧ y < 0 then -(Real.pi / 2)
  else 0

namespace CoordinateConverter

/-- Constant `ELLIPSOID_GRS80['a']` (semi-major axis, metres). -/
def GRS80_a : ℝ := 6378137.0

/-- Constant `ELLIPSOID_GRS80['f']` (flattening). -/
def GRS80_f : ℝ := 1 / 298.257222101

/-- Constant `TRANSFORM_PARAMS['dx']`. -/
def dx : ℝ := -115.80
/-- Constant `TRANSFORM_PARAMS['dy']`. -/
def dy : ℝ := 474.99
/-- Constant `TRANSFORM_PARAMS['dz']`. -/
def dz : ℝ := 674.11
/-- Constant `TRANSFORM_PARAMS['wx']`. -/
def wx : ℝ := 1.16 * Real.pi / (180 * 3600)
/-- Constant `TRANSFORM_PARAMS['wy']`. -/
def wy : ℝ := -2.31 * Real.pi / (180 * 3600)
/-- Constant `TRANSFORM_PARAMS['wz']`. -/
def wz : ℝ := -1.63 * Real.pi / (180 * 3600)
/-- Constant `TRANSFORM_PARAMS['k']`. -/
def k : ℝ := -6.43e-6

/-- Constant `KOREA_TM_CENTRAL['longitude_of_origin']`. -/
def longitude_of_origin : ℝ := 127.0
/-- Constant `KOREA_TM_CENTRAL['latitude_of_origin']`. -/
def latitude_of_origin : ℝ := 38.0
/-- Constant `KOREA_TM_CENTRAL['scale_factor']`. -/
def scale_factor : ℝ := 0.9996
/-- Constant `KOREA_TM_CENTRAL['false_easting']`. -/
def false_easting : ℝ := 200000.0
/-- Constant `KOREA_TM_CENTRAL['false_northing']`. -/
def false_northing : ℝ := 500000.0

/-- Model of `CoordinateConverter._wgs84_to_grs80` (coordinates.py 80–114):
geodetic → Cartesian, forward 7-parameter Helmert, Cartesian →
geodetic (one-pass closed form). -/
def wgs84_to_grs80 (longitude latitude : ℝ) : ℝ × ℝ :=
  let lon_rad := radians longitude
  let lat_rad := radians latitude
  let a := GRS80_a
  let f := GRS80_f
  let e2 := 2 * f - f * f
  let N := a / Real.sqrt (1 - e2 * Real.sin lat_rad ^ 2)
  let X := N * Real.cos lat_rad * Real.cos lon_rad
  let Y := N * Real.cos lat_rad * Real.sin lon_rad
  let Z := N * (1 - e2) * Real.sin lat_rad
  let X_new := dx + (1 + k) * X + wz * Y - wy * Z
  let Y_new := dy - wz * X + (1 + k) * Y + wx * Z
  let Z_new := dz + wy * X - wx * Y + (1 + k) * Z
  let p := Real.sqrt (X_new ^ 2 + Y_new ^ 2)
  let theta := Real.arctan (Z_new * a / (p * a * (1 - f)))
  let lat_new := Real.arctan ((Z_new + e2 * a * (1 - f) * Real.sin theta ^ 3) /
    (p - e2 * a * Real.cos theta ^ 3))
  let lon_new := atan2 Y_new X_new
  (degrees lon_new, degrees lat_new)

/-- Model of `CoordinateConverter._grs80_to_wgs84` (coordinates.py 116–146):
sign-flipped approximate inverse of the Helmert step. -/
def grs80_to_wgs84 (longitude latitude : ℝ) : ℝ × ℝ :=
  let lon_rad := radians longitude
  let lat_rad := radians latitude
  let a := GRS80_a
  let f := GRS80_f
  let e2 := 2 * f - f * f
  let N := a / Real.sqrt (1 - e2 * Real.sin lat_rad ^ 2)
  let X := N * Real.cos lat_rad * Real.cos lon_rad
  let Y := N * Real.cos lat_rad * Real.sin lon_rad
  let Z := N * (1 - e2) * Real.sin lat_rad
  let X_new := -dx + (1 - k) * X - wz * Y + wy * Z
  let Y_new := -dy + wz * X + (1 - k) * Y - wx * Z
  let Z_new := -dz - wy * X + wx * Y + (1 - k) * Z
  let p := Real.sqrt (X_new ^ 2 + Y_new ^ 2)
  let theta := Real.arctan (Z_new * a / (p * a * (1 - f)))
  let lat_new := Real.arctan ((Z_new + e2 * a * (1 - f) * Real.sin theta ^ 3) /
    (p - e2 * a * Real.cos theta ^ 3))
  let lon_new := atan2 Y_new X_new
  (degrees lon_new, degrees lat_new)

/-- Model of `CoordinateConverter._geodetic_to_tm` (coordinates.py 148–196):
forward central-origin Transverse Mercator projection.  The source
rebinds the local name `C` from the arc coefficient to the projection
auxiliary term; the rebinding is kept as a shadowing `let`. -/
def geodetic_to_tm (longitude latitude : ℝ) : ℝ × ℝ :=
  let a := GRS80_a
  let f := GRS80_f
  let e2 := 2 * f - f * f
  let e4 := e2 * e2
  let e6 := e4 * e2
  let lat_rad := radians latitude
  let lon_rad := radians longitude
  let lat0_rad := radians latitude_of_origin
  let lon0_rad := radians longitude_of_origin
  let k0 := scale_factor
  let A := a * (1 - e2 / 4 - 3 * e4 / 64 - 5 * e6 / 256)
  let B := a * (3 * e2 / 8 + 3 * e4 / 32 + 45 * e6 / 1024)
  let C := a * (15 * e4 / 256 + 45 * e6 / 1024)
  let D := a * (35 * e6 / 3072)
  let M := A * lat_rad - B * Real.sin (2 * lat_rad) + C * Real.sin (4 * lat_rad)
    - D * Real.sin (6 * lat_rad)
  let M0 := A * lat0_rad - B * Real.sin (2 * lat0_rad)
    + C * Real.sin (4 * lat0_rad) - D * Real.sin (6 * lat0_rad)
  let nu := a / Real.sqrt (1 - e2 * Real.sin lat_rad ^ 2)
  let rho := a * (1 - e2) / (1 - e2 * Real.sin lat_rad ^ 2) ^ ((3 : ℝ) / 2)
  let eta2 := nu / rho - 1
  let p := lon_rad - lon0_rad
  let T := Real.tan lat_rad ^ 2
  let C := e2 * Real.cos lat_rad ^ 2 / (1 - e2)
  let x := k0 * nu * (p + (1 - T + C) * p ^ 3 / 6
    + (5 - 18 * T + T ^ 2 + 72 * C - 58 * eta2) * p ^ 5 / 120)
  let y := k0 * (M - M0 + nu * Real.tan lat_rad * (p ^ 2 / 2
    + (5 - T + 9 * C + 4 * C ^ 2) * p ^ 4 / 24
    + (61 - 58 * T + T ^ 2 + 600 * C - 330 * eta2) * p ^ 6 / 720))
  (x + false_easting, y + false_northing)

/-- Model of `CoordinateConverter._tm_to_geodetic` (coordinates.py 198–251):
inverse Transverse Mercator via the footpoint-latitude series. -/
def tm_to_geodetic (x y : ℝ) : ℝ × ℝ :=
  let a := GRS80_a
  let f := GRS80_f
  let x := x - false_easting
  let y := y - false_northing
  let e2 := 2 * f - f * f
  let e4 := e2 * e2
  let e6 := e4 * e2
  let k0 := scale_factor
  let lat0_rad := radians latitude_of_origin
  let lon0_rad := radians longitude_of_origin
  let A := a * (1 - e2 / 4 - 3 * e4 / 64 - 5 * e6 / 256)
  let B := a * (3 * e2 / 8 + 3 * e4 / 32 + 45 * e6 / 1024)
  let C := a * (15 * e4 / 256 + 45 * e6 / 1024)
  let D := a * (35 * e6 / 3072)
  let M0 := A * lat0_rad - B * Real.sin (2 * lat0_rad)
    + C * Real.sin (4 * lat0_rad) - D * Real.sin (6 * lat0_rad)
  let M := M0 + y / k0
  let mu := M / (a * (1 - e2 / 4 - 3 * e4 / 64 - 5 * e6 / 256))
  let lat1 := mu + (3 / 2 * e2 - 27 / 32 * e4) * Real.sin (2 * mu)
    + (21 / 16 * e4 - 55 / 32 * e6) * Real.sin (4 * mu)
    + 151 / 96 * e6 * Real.sin (6 * mu)
  let nu1 := a / Real.sqrt (1 - e2 * Real.sin lat1 ^ 2)
  let rho1 := a * (1 - e2) / (1 - e2 * Real.sin lat1 ^ 2) ^ ((3 : ℝ) / 2)
  let T1 := Real.tan lat1 ^ 2
  let C1 := e2 * Real.cos lat1 ^ 2 / (1 - e2)
  let eta1_2 := nu1 / rho1 - 1
  let D_var := x / (nu1 * k0)
  let lat := lat1 - (nu1 * Real.tan lat1 / rho1) * (D_var ^ 2 / 2
    - (5 + 3 * T1 + 10 * C1 - 4 * C1 ^ 2 - 9 * eta1_2) * D_var ^ 4 / 24
    + (61 + 90 * T1 + 298 * C1 + 45 * T1 ^ 2 - 252 * eta1_2 - 3 * C1 ^ 2)
      * D_var ^ 6 / 720)
  let lon := lon0_rad + (D_var - (1 + 2 * T1 + C1) * D_var ^ 3 / 6
    + (5 - 2 * C1 + 28 * T1 - 3 * C1 ^ 2 + 8 * eta1_2 + 24 * T1 ^ 2)
      * D_var ^ 5 / 120) / Real.cos lat1
  (degrees lon, degrees lat)

/-- Model of `CoordinateConverter.wgs84_to_wcongnamul` (coordinates.py 40–58). -/
def wgs84_to_wcongnamul (longitude latitude : ℝ) : ℝ × ℝ :=
  let grs80 := wgs84_to_grs80 longitude latitude
  geodetic_to_tm grs80.1 grs80.2

/-- Model of `CoordinateConverter.wcongnamul_to_wgs84` (coordinates.py 60–78). -/
def wcongnamul_to_wgs84 (x y : ℝ) : ℝ × ℝ :=
  let geodetic := tm_to_geodetic x y
  grs80_to_wgs84 geodetic.1 geodetic.2

end CoordinateConverter

/-- Model of Python `coords.get(key)` on a float-valued dict. -/
def dictGetR : List (String × ℝ) → String → Option ℝ
  | [], _ => Option.none
  | (key2, v) :: rest, key => if key2 = key then some v else dictGetR rest key

/-- Model of `coords.get(k1, coords.get(k2, 0))`. -/
def pyGet2 (coords : List (String × ℝ)) (k1 k2 : String) : ℝ :=
  match dictGetR coords k1 with
  | some v => v
  | Option.none =>
      match dictGetR coords k2 with
      | some v => v
      | Option.none => 0

/-- Model of `coords.get(key, 0)`. -/
def pyGet0 (coords : List (String × ℝ)) (key : String) : ℝ :=
  (dictGetR coords key).getD 0

/-- Model of `convert_coordinates(coords, from_system, to_system)`
(coordinates.py 254–284).  The `ValueError` of the unsupported branch
is the `Except.error` case; `coords.copy()` of an immutable
association list is the list itself. -/
def convert_coordinates (coords : List (String × ℝ))
    (from_system to_system : String) : Except String (List (String × ℝ)) :=
  if from_system = to_system then Except.ok coords
  else if from_system = "WGS84" ∧ to_system = "WCONGNAMUL" then
    let r := CoordinateConverter.wgs84_to_wcongnamul
      (pyGet2 coords "longitude" "x") (pyGet2 coords "latitude" "y")
    Except.ok [("x", r.1), ("y", r.2)]
  else if from_system = "WCONGNAMUL" ∧ to_system = "WGS84" then
    let r := CoordinateConverter.wcongnamul_to_wgs84
      (pyGet0 coords "x") (pyGet0 coords "y")
    Except.ok [("longitude", r.1), ("latitude", r.2)]
  else
    Except.error ("Unsupported conversion: " ++ from_system ++ " to "
      ++ to_system)

/-- Model of `validate_coordinates(coords, coord_system)`
(coordinates.py 287–312). -/
def validate_coordinates (coords : List (String × ℝ))
    (coord_system : String) : Bool :=
  if coord_system = "WGS84" then
    let longitude := pyGet2 coords "longitude" "x"
    let latitude := pyGet2 coords "latitude" "y"
    decide ((124.0 ≤ longitude ∧ longitude ≤ 132.0)
      ∧ (33.0 ≤ latitude ∧ latitude ≤ 39.0))
  else if coord_system = "WCONGNAMUL" then
    let x := pyGet0 coords "x"
    let y := pyGet0 coords "y"
    decide ((100000 ≤ x ∧ x ≤ 600000) ∧ (1000000 ≤ y ∧ y ≤ 1500000))
  else false

end

/-! ### Theorems for the claims -/

/-- Helper: a `Bool`-level non-match gives the `Option`-level one. -/
theorem eq_none_of_isSome_false {α : Type} {o : Option α}
    (h : o.isSome = false) : o = Option.none := by
  cases o with
  | none => rfl
  | some a => simp at h

/-- Claim C2: the forward TM projection maps the projection origin
`(127.0°E, 38.0°N)` exactly onto the false offsets `(200000, 500000)`:
the longitude difference `p` and the meridian-arc difference `M − M0`
both vanish at the origin, so only the false easting and false
northing remain (exact in the real-number model of the float code). -/
theorem geodetic_to_tm_fixed_point :
    CoordinateConverter.geodetic_to_tm 127.0 38.0 = (200000.0, 500000.0) := by
  unfold CoordinateConverter.geodetic_to_tm
  simp only [CoordinateConverter.longitude_of_origin,
    CoordinateConverter.latitude_of_origin, CoordinateConverter.false_easting,
    CoordinateConverter.false_northing, CoordinateConverter.scale_factor]
  refine Prod.ext ?_ ?_ <;> ring_nf

/-- Claim C3: `convert_coordinates` on a pair of distinct system
labels that is neither `WGS84 → WCONGNAMUL` nor `WCONGNAMUL → WGS84`
fails with an error naming the two systems, for every coordinate
dict. -/
theorem convert_coordinates_unsupported (coords : List (String × ℝ))
    (from_system to_system : String) (hne : from_system ≠ to_system)
    (h1 : ¬(from_system = "WGS84" ∧ to_system = "WCONGNAMUL"))
    (h2 : ¬(from_system = "WCONGNAMUL" ∧ to_system = "WGS84")) :
    convert_coordinates coords from_system to_system
      = Except.error ("Unsupported conversion: " ++ from_system ++ " to "
          ++ to_system) := by
  unfold convert_coordinates
  rw [if_neg hne, if_neg h1, if_neg h2]

/-- Witness for C3 at the spec's example pair
`("WCONGNAMUL", "BESSEL")`. -/
theorem convert_coordinates_unsupported_witness :
    convert_coordinates [] "WCONGNAMUL" "BESSEL"
      = Except.error "Unsupported conversion: WCONGNAMUL to BESSEL" := by
  have h := convert_coordinates_unsupported [] "WCONGNAMUL" "BESSEL"
    (by decide) (by decide) (by decide)
  simpa using h

/-- Claim C4: `convert_coordinates(c, S, S)` returns `c` unchanged for
every system label `S` (supported for cross-conversion or not) and
every coordinate dict `c`. -/
theorem convert_coordinates_identity (coords : List (String × ℝ))
    (S : String) : convert_coordinates coords S S = Except.ok coords := by
  simp [convert_coordinates]

/-- Claim C5: `validate_coordinates` is the WGS84 range check
`longitude ∈ [124, 132] ∧ latitude ∈ [33, 39]` (with `x`/`y` key
fallback), the WCONGNAMUL range check `x ∈ [100000, 600000] ∧
y ∈ [1000000, 1500000]`, and `false` for every other system label;
with the spec's four boundary cases. -/
theorem validate_coordinates_spec :
    (∀ coords : List (String × ℝ),
      (validate_coordinates coords "WGS84" = true ↔
        (124.0 ≤ pyGet2 coords "longitude" "x"
          ∧ pyGet2 coords "longitude" "x" ≤ 132.0)
        ∧ (33.0 ≤ pyGet2 coords "latitude" "y"
          ∧ pyGet2 coords "latitude" "y" ≤ 39.0)))
    ∧ (∀ coords : List (String × ℝ),
      (validate_coordinates coords "WCONGNAMUL" = true ↔
        (100000 ≤ pyGet0 coords "x" ∧ pyGet0 coords "x" ≤ 600000)
        ∧ (1000000 ≤ pyGet0 coords "y" ∧ pyGet0 coords "y" ≤ 1500000)))
    ∧ (∀ (coords : List (String × ℝ)) (sys : String),
        sys ≠ "WGS84" → sys ≠ "WCONGNAMUL" →
        validate_coordinates coords sys = false)
    ∧ validate_coordinates [("longitude", 124.0), ("latitude", 33.0)]
        "WGS84" = true
    ∧ validate_coordinates [("longitude", 123.99), ("latitude", 33.0)]
        "WGS84" = false
    ∧ validate_coordinates [("x", 100000), ("y", 1000000)]
        "WCONGNAMUL" = true
    ∧ validate_coordinates [("x", 99999), ("y", 1000000)]
        "WCONGNAMUL" = false := by
  refine ⟨?_, ?_, ?_, ?_, ?_, ?_, ?_⟩
  · intro coords
    simp [validate_coordinates]
  · intro coords
    simp [validate_coordinates]
  · intro coords sys h1 h2
    unfold validate_coordinates
    rw [if_neg h1, if_neg h2]
  · simp [validate_coordinates, pyGet2, dictGetR]
    norm_num
  · simp [validate_coordinates, pyGet2, dictGetR]
    norm_num
  · simp [validate_coordinates, pyGet0, dictGetR]
    norm_num
  · simp [validate_coordinates, pyGet0, dictGetR]
    norm_num

/-- Witness for C5 at an unknown system label. -/
theorem validate_coordinates_spec_witness :
    validate_coordinates [] "BESSEL" = false :=
  validate_coordinates_spec.2.2.1 [] "BESSEL" (by decide) (by decide)

/-- Claim C6 (failing input): on the path segment `"--5"` the numeric
branch's guard `key.lstrip("-").isdigit()` passes but the unguarded
`int(key)` raises an uncaught `ValueError`, so `get_value_from_path`
raises instead of returning `None`. -/
theorem get_value_from_path_uncaught_valueerror :
    get_value_from_path (PyVal.dict [("a", PyVal.int 1)]) "--5"
      = Except.error "ValueError: invalid literal for int" := rfl

/-- Claim C7: the five literal path-resolution cases of the spec. -/
theorem get_value_from_path_literal_cases :
    get_value_from_path
        (PyVal.dict [("items",
          PyVal.list [PyVal.str "a", PyVal.str "b", PyVal.str "c"])])
        "items[0]" = Except.ok (PyVal.str "a")
    ∧ get_value_from_path
        (PyVal.dict [("items",
          PyVal.list [PyVal.str "a", PyVal.str "b", PyVal.str "c"])])
        "items[-1]" = Except.ok (PyVal.str "c")
    ∧ get_value_from_path
        (PyVal.dict [("data", PyVal.dict [("history",
          PyVal.list [PyVal.dict [("value", PyVal.int 10)],
            PyVal.dict [("value", PyVal.int 20)]])])])
        "data.history[-1].value" = Except.ok (PyVal.int 20)
    ∧ get_value_from_path (PyVal.dict [("k", PyVal.str "v")])
        "missing.path" = Except.ok PyVal.none
    ∧ get_value_from_path (PyVal.dict [("items", PyVal.list [PyVal.str "a"])])
        "items[5]" = Except.ok PyVal.none :=
  ⟨rfl, rfl, rfl, rfl, rfl⟩

/-- Claim C8: `parse_date_value` fails closed to `None`: non-string
input, input matching none of the 13 patterns, and pattern-matching
input whose captured values are not a valid calendar date (month 13,
day 32) all yield `None`, with no exception reaching the caller. -/
theorem parse_date_value_fails_closed :
    (∀ (currentYear : ℕ) (defaultTz : ℤ) (v : PyVal),
      (∀ s, v ≠ PyVal.str s) →
      parse_date_value v currentYear defaultTz = Option.none)
    ∧ (∀ (s : String) (currentYear : ℕ) (defaultTz : ℤ),
        matchesAnyDatePattern (pyStrip s.data) = false →
        parse_date_value (PyVal.str s) currentYear defaultTz = Option.none)
    ∧ (∀ (currentYear : ℕ) (defaultTz : ℤ),
        parse_date_value (PyVal.str "2025-13-01") currentYear defaultTz
          = Option.none)
    ∧ (∀ (currentYear : ℕ) (defaultTz : ℤ),
        parse_date_value (PyVal.str "2025-01-32") currentYear defaultTz
          = Option.none)
    ∧ (∀ (currentYear : ℕ) (defaultTz : ℤ),
        parse_date_value (PyVal.str "not a date") currentYear defaultTz
          = Option.none) := by
  refine ⟨?_, ?_, fun _ _ => rfl, fun _ _ => rfl, fun _ _ => rfl⟩
  · intro currentYear defaultTz v h
    match v with
    | PyVal.none => rfl
    | PyVal.int _ => rfl
    | PyVal.list _ => rfl
    | PyVal.dict _ => rfl
    | PyVal.str s => exact absurd rfl (h s)
  · intro s currentYear defaultTz h
    simp only [matchesAnyDatePattern, Bool.or_eq_false_iff] at h
    obtain ⟨⟨⟨⟨⟨⟨⟨⟨⟨⟨⟨⟨h1, h2⟩, h3⟩, h4⟩, h5⟩, h6⟩, h7⟩, h8⟩, h9⟩,
      h10⟩, h11⟩, h12⟩, h13⟩ := h
    simp [parse_date_value, parse_date_core,
      eq_none_of_isSome_false h1, eq_none_of_isSome_false h2,
      eq_none_of_isSome_false h3, eq_none_of_isSome_false h4,
      eq_none_of_isSome_false h5, eq_none_of_isSome_false h6,
      eq_none_of_isSome_false h7, eq_none_of_isSome_false h8,
      eq_none_of_isSome_false h9, eq_none_of_isSome_false h10,
      eq_none_of_isSome_false h11, eq_none_of_isSome_false h12,
      eq_none_of_isSome_false h13]

/-- Witness for C8: a non-string input and a no-pattern input. -/
theorem parse_date_value_fails_closed_witness :
    parse_date_value (PyVal.int 7) 2025 540 = Option.none
    ∧ parse_date_value (PyVal.str "hello") 2025 540 = Option.none :=
  ⟨parse_date_value_fails_closed.1 2025 540 (PyVal.int 7)
      (fun _ h => nomatch h),
    parse_date_value_fails_closed.2.1 "hello" 2025 540 (by decide)⟩

/-- Claim C9 (failing input): pattern 1 (`YYYY-M-D`) builds its
datetime WITHOUT `tzinfo=TZ_ASIA_SEOUL`, unlike the other twelve
patterns, so `"2025-01-01"` is a naive timestamp which
`dt_util.as_local` interprets as UTC: with Home Assistant configured
to Asia/Seoul it comes back as 09:00, nine hours after what the same
date spelled `"20250101"` yields. -/
theorem parse_date_value_pattern1_naive :
    parse_date_core ("2025-01-01".data) 2025
      = some ⟨2025, 1, 1, 0, 0, 0, 0, Option.none⟩
    ∧ parse_date_core ("20250101".data) 2025
      = some ⟨2025, 1, 1, 0, 0, 0, 0, some TZ_ASIA_SEOUL⟩
    ∧ parse_date_value (PyVal.str "2025-01-01") 2025 TZ_ASIA_SEOUL
      = some ⟨2025, 1, 1, 9, 0, 0, 0, some TZ_ASIA_SEOUL⟩
    ∧ parse_date_value (PyVal.str "20250101") 2025 TZ_ASIA_SEOUL
      = some ⟨2025, 1, 1, 0, 0, 0, 0, some TZ_ASIA_SEOUL⟩ := by
  refine ⟨?_, ?_, ?_, ?_⟩ <;> decide

/-- Claim C10: a coordinate dict lacking all expected keys silently
defaults to `(0, 0)`: both conversion directions run on `(0, 0)` and
return a result, and both validations reject it, since 0 lies outside
every valid range. -/
theorem convert_coordinates_missing_keys (coords : List (String × ℝ))
    (hlon : dictGetR coords "longitude" = Option.none)
    (hlat : dictGetR coords "latitude" = Option.none)
    (hx : dictGetR coords "x" = Option.none)
    (hy : dictGetR coords "y" = Option.none) :
    convert_coordinates coords "WCONGNAMUL" "WGS84"
      = Except.ok
          [("longitude", (CoordinateConverter.wcongnamul_to_wgs84 0 0).1),
            ("latitude", (CoordinateConverter.wcongnamul_to_wgs84 0 0).2)]
    ∧ convert_coordinates coords "WGS84" "WCONGNAMUL"
      = Except.ok
          [("x", (CoordinateConverter.wgs84_to_wcongnamul 0 0).1),
            ("y", (CoordinateConverter.wgs84_to_wcongnamul 0 0).2)]
    ∧ validate_coordinates coords "WGS84" = false
    ∧ validate_coordinates coords "WCONGNAMUL" = false := by
  have h2 : pyGet2 coords "longitude" "x" = 0 := by simp [pyGet2, hlon, hx]
  have h3 : pyGet2 coords "latitude" "y" = 0 := by simp [pyGet2, hlat, hy]
  have h4 : pyGet0 coords "x" = 0 := by simp [pyGet0, hx]
  have h5 : pyGet0 coords "y" = 0 := by simp [pyGet0, hy]
  refine ⟨?_, ?_, ?_, ?_⟩
  · simp [convert_coordinates, h4, h5]
  · simp [convert_coordinates, h2, h3]
  · simp only [validate_coordinates, if_true, h2, h3]
    norm_num
  · unfold validate_coordinates
    rw [if_neg (by decide : ¬("WCONGNAMUL" = "WGS84")), if_pos rfl]
    simp only [h4, h5]
    norm_num

/-- Witness for C10 at the empty dict. -/
theorem convert_coordinates_missing_keys_witness :
    convert_coordinates [] "WCONGNAMUL" "WGS84"
      = Except.ok
          [("longitude", (CoordinateConverter.wcongnamul_to_wgs84 0 0).1),
            ("latitude", (CoordinateConverter.wcongnamul_to_wgs84 0 0).2)]
    ∧ convert_coordinates [] "WGS84" "WCONGNAMUL"
      = Except.ok
          [("x", (CoordinateConverter.wgs84_to_wcongnamul 0 0).1),
            ("y", (CoordinateConverter.wgs84_to_wcongnamul 0 0).2)]
    ∧ validate_coordinates [] "WGS84" = false
    ∧ validate_coordinates [] "WCONGNAMUL" = false :=
  convert_coordinates_missing_keys [] rfl rfl rfl rfl

end KoreaIncubator
